import Mathlib

/-!
Shallow embedding of the TUI Framework installer CLI
(src/python-installer/tui_framework_installer/cli.py).

External effects are abstracted as oracles passed in as arguments:
`which` answers whether an executable name resolves on the search path
(shutil.which), and a runner of type `Runner` plays the role of
`run_command`, mapping a shell command string and an optional working
directory to the captured result of the spawned process.  Every function
below is a direct transcription of the corresponding Python function;
the `executed` fields record, in order, the commands each function hands
to the runner, so that claims about which commands are or are not
executed can be stated.
-/

namespace TuiInstaller

/-- Result of run_command: (returncode == 0, stdout, stderr). -/
structure CommandResult where
  success : Bool
  stdout : String
  stderr : String
  deriving DecidableEq, Repr

/-- The command-running oracle: command string and optional cwd in,
captured result out. -/
def Runner : Type := String → Option String → CommandResult

/-- Boolean substring test, the embedding of Python's `pat in s`. -/
def strContains (s pat : String) : Bool :=
  decide (pat.data <:+: s.data)

/-- The deps table of install_dependencies: platform name to package list;
`none` embeds absence of the key. -/
def deps (platform_name : String) : Option (List String) :=
  if platform_name = "ubuntu" then
    some ["build-essential", "cmake", "pkg-config",
          "libncurses-dev", "libunistring-dev",
          "libavformat-dev", "libavutil-dev",
          "libswscale-dev", "libqrcodegen-dev", "git"]
  else if platform_name = "fedora" then
    some ["gcc-c++", "cmake", "pkgconfig",
          "ncurses-devel", "libunistring-devel",
          "ffmpeg-devel", "qrencode-devel", "git"]
  else if platform_name = "arch" then some ["notcurses"]
  else if platform_name = "macos" then some ["notcurses"]
  else if platform_name = "msys2" then
    some ["mingw-w64-x86_64-gcc", "mingw-w64-x86_64-cmake",
          "mingw-w64-x86_64-pkg-config", "mingw-w64-x86_64-ncurses",
          "mingw-w64-x86_64-ffmpeg", "git"]
  else none

/-- The commands table of install_dependencies: package manager to install
command template.  The pacman entry depends on the platform name, exactly
as the conditional expression in the source does. -/
def commands (platform_name package_manager : String) : Option String :=
  if package_manager = "apt" then
    some "sudo apt-get update && sudo apt-get install -y"
  else if package_manager = "dnf" then some "sudo dnf install -y"
  else if package_manager = "pacman" then
    some (if platform_name = "msys2" then "sudo pacman -S --needed --noconfirm"
          else "yay -S")
  else if package_manager = "brew" then some "brew install"
  else none

/-- detect_platform: `system` is the lowercased OS identifier
(platform.system().lower()); `which` is the executable-presence probe. -/
def detect_platform (system : String) (which : String → Bool) :
    String × String :=
  if system = "linux" then
    if which "apt-get" then ("ubuntu", "apt")
    else if which "dnf" then ("fedora", "dnf")
    else if which "pacman" then ("arch", "pacman")
    else ("linux", "unknown")
  else if system = "darwin" then ("macos", "brew")
  else if system = "windows" then
    if which "pacman" then ("windows", "msys2")
    else if which "vcpkg" then ("windows", "vcpkg")
    else ("windows", "unknown")
  else ("unknown", "unknown")

/-- Result of install_dependencies, with the list of commands it passed to
the runner. -/
structure InstallResult where
  success : Bool
  message : String
  executed : List String
  deriving DecidableEq, Repr

/-- install_dependencies: table lookups, command construction, one
delegation to the runner. -/
def install_dependencies (platform_name package_manager : String)
    (runner : Runner) : InstallResult :=
  match deps platform_name with
  | none => ⟨false, "Unsupported platform: " ++ platform_name, []⟩
  | some pkgList =>
    match commands platform_name package_manager with
    | none => ⟨false, "Unsupported package manager: " ++ package_manager, []⟩
    | some template =>
      let packages := String.intercalate " " pkgList
      let cmd := template ++ " " ++ packages
      let r := runner cmd none
      if r.success then ⟨true, "Dependencies installed successfully", [cmd]⟩
      else ⟨false, "Failed to install dependencies: " ++ r.stderr, [cmd]⟩

/-- The clone command of build_notcurses. -/
def cloneCmd : String := "git clone https://github.com/dankamongmen/notcurses.git"

/-- The checkout command of build_notcurses. -/
def checkoutCmd : String := "git checkout v3.0.11"

/-- The configure command of build_notcurses. -/
def configureCmd : String := "cmake .. -DCMAKE_BUILD_TYPE=Release"

/-- The compile command of build_notcurses at a given parallelism degree. -/
def makeCmd (n : Nat) : String := "make -j" ++ toString n

/-- The install command of build_notcurses. -/
def installCmd : String := "sudo make install"

/-- The linker-cache refresh command of build_notcurses. -/
def ldconfigCmd : String := "sudo ldconfig"

/-- The version query the orchestrator issues before and after installing. -/
def pkgConfigCmd : String := "pkg-config --modversion notcurses"

/-- os.cpu_count() or 4: `none` embeds a cpu count the OS cannot report,
and Python's `or` also replaces a falsy 0. -/
def cpuCount (detected : Option Nat) : Nat :=
  match detected with
  | some n => if n = 0 then 4 else n
  | none => 4

/-- Result of build_notcurses, with the (command, cwd) pairs it passed to
the runner, in order. -/
structure BuildResult where
  success : Bool
  message : String
  executed : List (String × Option String)
  deriving DecidableEq, Repr

/-- build_notcurses: clone, checkout, configure, compile, install, each
gated on the previous step, then on Linux only a linker-cache refresh whose
result the source discards.  `system` is the lowercased OS identifier,
`temp_dir` the ephemeral staging directory, `detected_cpus` the value of
os.cpu_count(). -/
def build_notcurses (system temp_dir : String) (detected_cpus : Option Nat)
    (runner : Runner) : BuildResult :=
  let r1 := runner cloneCmd (some temp_dir)
  if r1.success then
    let notcurses_dir := temp_dir ++ "/notcurses"
    let r2 := runner checkoutCmd (some notcurses_dir)
    if r2.success then
      let build_dir := notcurses_dir ++ "/build"
      let r3 := runner configureCmd (some build_dir)
      if r3.success then
        let r4 := runner (makeCmd (cpuCount detected_cpus)) (some build_dir)
        if r4.success then
          let r5 := runner installCmd (some build_dir)
          if r5.success then
            let done := [(cloneCmd, some temp_dir),
                         (checkoutCmd, some notcurses_dir),
                         (configureCmd, some build_dir),
                         (makeCmd (cpuCount detected_cpus), some build_dir),
                         (installCmd, some build_dir)]
            ⟨true, "notcurses 3.0.11 installed successfully",
             if system = "linux" then done ++ [(ldconfigCmd, none)] else done⟩
          else
            ⟨false, "Failed to install notcurses: " ++ r5.stderr,
             [(cloneCmd, some temp_dir), (checkoutCmd, some notcurses_dir),
              (configureCmd, some build_dir),
              (makeCmd (cpuCount detected_cpus), some build_dir),
              (installCmd, some build_dir)]⟩
        else
          ⟨false, "Failed to build notcurses: " ++ r4.stderr,
           [(cloneCmd, some temp_dir), (checkoutCmd, some notcurses_dir),
            (configureCmd, some build_dir),
            (makeCmd (cpuCount detected_cpus), some build_dir)]⟩
      else
        ⟨false, "Failed to configure build: " ++ r3.stderr,
         [(cloneCmd, some temp_dir), (checkoutCmd, some notcurses_dir),
          (configureCmd, some build_dir)]⟩
    else
      ⟨false, "Failed to checkout v3.0.11: " ++ r2.stderr,
       [(cloneCmd, some temp_dir), (checkoutCmd, some notcurses_dir)]⟩
  else
    ⟨false, "Failed to clone notcurses: " ++ r1.stderr,
     [(cloneCmd, some temp_dir)]⟩

/-- Outcome of the orchestrator: the process exit code (0 for a normal
return, 1 for sys.exit(1)) and whether install_dependencies and
build_notcurses were invoked. -/
structure MainResult where
  exitCode : Nat
  depsInvoked : Bool
  buildInvoked : Bool
  deriving DecidableEq, Repr

/-- The orchestrator main: flag parsing is already done (the three Bool
flags), platform detection, unknown-platform bailout, the
already-installed fast path, the dependency stage, the build stage, and
the --test verification, in the order of the source. -/
def main_run (skip_deps skip_build test : Bool) (system temp_dir : String)
    (detected_cpus : Option Nat) (which : String → Bool)
    (runner : Runner) : MainResult :=
  let pr := detect_platform system which
  let platform_name := pr.1
  let package_manager := pr.2
  if platform_name = "unknown" then ⟨1, false, false⟩
  else
    let chk := runner pkgConfigCmd none
    if chk.success && strContains chk.stdout "3.0.11" && !test then
      ⟨0, false, false⟩
    else
      let depsInv := !skip_deps
      if !skip_deps &&
          !(install_dependencies platform_name package_manager runner).success
      then ⟨1, depsInv, false⟩
      else if !skip_build && !(["arch", "macos"].contains platform_name) then
        let br := build_notcurses system temp_dir detected_cpus runner
        if !br.success then ⟨1, depsInv, true⟩
        else if test then
          let v := runner pkgConfigCmd none
          if v.success then ⟨0, depsInv, true⟩ else ⟨1, depsInv, true⟩
        else ⟨0, depsInv, true⟩
      else if test then
        let v := runner pkgConfigCmd none
        if v.success then ⟨0, depsInv, false⟩ else ⟨1, depsInv, false⟩
      else ⟨0, depsInv, false⟩

/-- A search path on which no executable resolves. -/
def whichNone : String → Bool := fun _ => false

/-- A runner on which the version query reports version 2.0.0 and every
other command succeeds. -/
def runnerV2 : Runner := fun c _ =>
  if c = pkgConfigCmd then ⟨true, "2.0.0\n", ""⟩ else ⟨true, "", ""⟩

/-- A runner on which the version query reports 13.0.112 and every other
command fails. -/
def runner13 : Runner := fun c _ =>
  if c = pkgConfigCmd then ⟨true, "13.0.112\n", ""⟩ else ⟨false, "", ""⟩

/-- A runner on which only the linker-cache refresh fails. -/
def runnerLd : Runner := fun c _ =>
  if c = ldconfigCmd then ⟨false, "", "ldconfig: failed"⟩ else ⟨true, "", ""⟩

/-- A runner on which only the clone fails. -/
def runnerCloneFail : Runner := fun c _ =>
  if c = cloneCmd then ⟨false, "", "fatal: unable to access remote"⟩
  else ⟨true, "", ""⟩

/-- A runner on which the version query fails and every other command
succeeds. -/
def runnerPkgFail : Runner := fun c _ =>
  if c = pkgConfigCmd then ⟨false, "", "notcurses not found"⟩
  else ⟨true, "", ""⟩

/-- A string that starts with the pattern contains the pattern. -/
theorem strContains_append (p s : String) :
    strContains (p ++ s) p = true := by
  simp only [strContains, decide_eq_true_eq]
  rw [String.data_append]
  exact (List.prefix_append p.data s.data).isInfix

/-- When both table lookups succeed, install_dependencies executes exactly
the concatenation of the template and the space-joined package list. -/
theorem install_executed_cmd (platform_name package_manager : String)
    (runner : Runner) (pkgs : List String) (template : String)
    (hd : deps platform_name = some pkgs)
    (hc : commands platform_name package_manager = some template) :
    (install_dependencies platform_name package_manager runner).executed =
      [template ++ " " ++ String.intercalate " " pkgs] := by
  unfold install_dependencies
  simp only [hd, hc]
  split <;> rfl

/-- When the build-stage guard of main is false (the skip flag is set or
the platform provides the library via its package manager), every path
through the orchestrator leaves the source build uninvoked. -/
theorem buildInvoked_false_of_guard (skip_deps skip_build test : Bool)
    (system temp_dir : String) (detected_cpus : Option Nat)
    (which : String → Bool) (runner : Runner)
    (hg : (!skip_build &&
      !(["arch", "macos"].contains (detect_platform system which).1)) = false) :
    (main_run skip_deps skip_build test system temp_dir detected_cpus
      which runner).buildInvoked = false := by
  simp only [main_run]
  split
  · rfl
  · split
    · rfl
    · split
      · rfl
      · rw [hg]
        simp only [Bool.false_eq_true, if_false]
        split <;> [split <;> rfl; rfl]

/-- C3: for every OS identifier and executable-presence environment,
detect_platform follows the priority rules: on linux it probes apt-get,
then dnf, then pacman, the first found winning and none found giving
(linux, unknown); on darwin it returns (macos, brew) with no probe; and
any OS identifier other than the three recognized ones gives
(unknown, unknown). -/
theorem detect_platform_priority (os : String) (which : String → Bool) :
    (os = "linux" →
      (which "apt-get" = true → detect_platform os which = ("ubuntu", "apt")) ∧
      (which "apt-get" = false → which "dnf" = true →
        detect_platform os which = ("fedora", "dnf")) ∧
      (which "apt-get" = false → which "dnf" = false → which "pacman" = true →
        detect_platform os which = ("arch", "pacman")) ∧
      (which "apt-get" = false → which "dnf" = false → which "pacman" = false →
        detect_platform os which = ("linux", "unknown"))) ∧
    (os = "darwin" → detect_platform os which = ("macos", "brew")) ∧
    (os ≠ "linux" → os ≠ "darwin" → os ≠ "windows" →
      detect_platform os which = ("unknown", "unknown")) := by
  refine ⟨fun h => ?_, fun h => ?_, fun h1 h2 h3 => ?_⟩
  · subst h
    refine ⟨fun ha => ?_, fun ha hd => ?_, fun ha hd hp => ?_,
      fun ha hd hp => ?_⟩
    · simp [detect_platform, ha]
    · simp [detect_platform, ha, hd]
    · simp [detect_platform, ha, hd, hp]
    · simp [detect_platform, ha, hd, hp]
  · subst h; simp [detect_platform]
  · simp [detect_platform, h1, h2, h3]

/-- C2: on the Windows OS identifier the detector always reports platform
name windows (never msys2), whatever executables resolve, and feeding the
detected pair to install_dependencies always fails with the message
"Unsupported platform: windows" without executing any command: the msys2
row of the dependency table is unreachable through the detector. -/
theorem detect_windows_install_unsupported (which : String → Bool)
    (runner : Runner) :
    (detect_platform "windows" which).1 = "windows" ∧
    install_dependencies (detect_platform "windows" which).1
        (detect_platform "windows" which).2 runner =
      ⟨false, "Unsupported platform: windows", []⟩ := by
  have h1 : (detect_platform "windows" which).1 = "windows" := by
    unfold detect_platform
    cases hp : which "pacman" <;> cases hv : which "vcpkg" <;> simp [hp, hv]
  refine ⟨h1, ?_⟩
  rw [h1]
  unfold install_dependencies deps
  simp

/-- C6: the command string install_dependencies builds and hands to the
runner is exactly "yay -S notcurses" for (arch, pacman), and exactly the
native pacman template followed by the space-joined msys2 package list for
(msys2, pacman). -/
theorem install_command_strings (runner : Runner) :
    (install_dependencies "arch" "pacman" runner).executed =
      ["yay -S notcurses"] ∧
    (install_dependencies "msys2" "pacman" runner).executed =
      ["sudo pacman -S --needed --noconfirm mingw-w64-x86_64-gcc mingw-w64-x86_64-cmake mingw-w64-x86_64-pkg-config mingw-w64-x86_64-ncurses mingw-w64-x86_64-ffmpeg git"] := by
  constructor
  · exact (install_executed_cmd "arch" "pacman" runner ["notcurses"] "yay -S"
      (by decide) (by decide)).trans (by decide)
  · exact (install_executed_cmd "msys2" "pacman" runner
      ["mingw-w64-x86_64-gcc", "mingw-w64-x86_64-cmake",
       "mingw-w64-x86_64-pkg-config", "mingw-w64-x86_64-ncurses",
       "mingw-w64-x86_64-ffmpeg", "git"]
      "sudo pacman -S --needed --noconfirm"
      (by decide) (by decide)).trans (by decide)

/-- C7: a platform name absent from the dependency table makes
install_dependencies fail with a message containing "Unsupported platform"
and no command executed; a platform name in the table paired with a
package manager absent from the command-template table makes it fail with
a message containing "Unsupported package manager" and no command
executed. -/
theorem install_unsupported_rejected (platform_name package_manager : String)
    (runner : Runner) :
    (deps platform_name = none →
      (install_dependencies platform_name package_manager runner).success
        = false ∧
      strContains
        (install_dependencies platform_name package_manager runner).message
        "Unsupported platform" = true ∧
      (install_dependencies platform_name package_manager runner).executed
        = []) ∧
    (∀ l, deps platform_name = some l →
      commands platform_name package_manager = none →
      (install_dependencies platform_name package_manager runner).success
        = false ∧
      strContains
        (install_dependencies platform_name package_manager runner).message
        "Unsupported package manager" = true ∧
      (install_dependencies platform_name package_manager runner).executed
        = []) := by
  constructor
  · intro hd
    unfold install_dependencies
    rw [hd]
    refine ⟨rfl, ?_, rfl⟩
    have : ("Unsupported platform: " ++ platform_name : String) =
        "Unsupported platform" ++ (": " ++ platform_name) := by
      rw [show ("Unsupported platform: " : String) =
        "Unsupported platform" ++ ": " from rfl, String.append_assoc]
    simpa [this] using
      strContains_append "Unsupported platform" (": " ++ platform_name)
  · intro l hd hc
    unfold install_dependencies
    rw [hd, hc]
    refine ⟨rfl, ?_, rfl⟩
    have : ("Unsupported package manager: " ++ package_manager : String) =
        "Unsupported package manager" ++ (": " ++ package_manager) := by
      rw [show ("Unsupported package manager: " : String) =
        "Unsupported package manager" ++ ": " from rfl, String.append_assoc]
    simpa [this] using
      strContains_append "Unsupported package manager"
        (": " ++ package_manager)

/-- C5: when the clone command fails, build_notcurses returns failure with
the clone stage's message carrying the captured stderr, and the clone
command is the only command passed to the runner: checkout, configure,
compile, install and refresh are never executed. -/
theorem build_clone_failure_short_circuits (system temp_dir : String)
    (detected_cpus : Option Nat) (runner : Runner)
    (h : (runner cloneCmd (some temp_dir)).success = false) :
    build_notcurses system temp_dir detected_cpus runner =
      ⟨false,
       "Failed to clone notcurses: " ++
         (runner cloneCmd (some temp_dir)).stderr,
       [(cloneCmd, some temp_dir)]⟩ := by
  simp only [build_notcurses]
  rw [h]
  simp

/-- Witness for C5 at a runner whose clone command fails. -/
theorem build_clone_failure_short_circuits_witness :
    build_notcurses "linux" "/tmp" (some 4) runnerCloneFail =
      ⟨false,
       "Failed to clone notcurses: " ++
         (runnerCloneFail cloneCmd (some "/tmp")).stderr,
       [(cloneCmd, some "/tmp")]⟩ :=
  build_clone_failure_short_circuits "linux" "/tmp" (some 4) runnerCloneFail
    (by decide)

/-- C4 as amended: build_notcurses succeeds exactly when the clone,
checkout, configure, compile and install commands all succeed; on the
first failure among these five it returns the failing step's message with
its captured stderr; the outcome of the Linux linker-cache refresh is
discarded, so refresh failure does not make the result a failure. -/
theorem build_success_refresh_ignored (system temp_dir : String)
    (detected_cpus : Option Nat) (runner : Runner) :
    let r1 := runner cloneCmd (some temp_dir)
    let r2 := runner checkoutCmd (some (temp_dir ++ "/notcurses"))
    let r3 := runner configureCmd (some (temp_dir ++ "/notcurses" ++ "/build"))
    let r4 := runner (makeCmd (cpuCount detected_cpus))
      (some (temp_dir ++ "/notcurses" ++ "/build"))
    let r5 := runner installCmd (some (temp_dir ++ "/notcurses" ++ "/build"))
    let b := build_notcurses system temp_dir detected_cpus runner
    (b.success =
      (r1.success && r2.success && r3.success && r4.success && r5.success)) ∧
    (r1.success = false →
      b.message = "Failed to clone notcurses: " ++ r1.stderr) ∧
    (r1.success = true → r2.success = false →
      b.message = "Failed to checkout v3.0.11: " ++ r2.stderr) ∧
    (r1.success = true → r2.success = true → r3.success = false →
      b.message = "Failed to configure build: " ++ r3.stderr) ∧
    (r1.success = true → r2.success = true → r3.success = true →
      r4.success = false →
      b.message = "Failed to build notcurses: " ++ r4.stderr) ∧
    (r1.success = true → r2.success = true → r3.success = true →
      r4.success = true → r5.success = false →
      b.message = "Failed to install notcurses: " ++ r5.stderr) ∧
    (b.success = true →
      b.message = "notcurses 3.0.11 installed successfully") := by
  intro r1 r2 r3 r4 r5 b
  show _ ∧ _
  cases h1 : r1.success <;> cases h2 : r2.success <;> cases h3 : r3.success <;>
    cases h4 : r4.success <;> cases h5 : r5.success <;>
      simp_all [build_notcurses, r1, r2, r3, r4, r5, b]

/-- Counterexample to C4 as stated: on a run where every build step
succeeds except the Linux linker-cache refresh, the refresh command is
executed and fails, yet build_notcurses still reports success. -/
theorem build_refresh_failure_still_success_cex :
    (runnerLd ldconfigCmd none).success = false ∧
    ((build_notcurses "linux" "/tmp" (some 4) runnerLd).executed.map
      Prod.fst).contains ldconfigCmd = true ∧
    (build_notcurses "linux" "/tmp" (some 4) runnerLd).success = true := by
  decide

/-- C8: whenever the detector reports platform name unknown, the
orchestrator exits with code 1 and neither install_dependencies nor
build_notcurses is invoked, whatever the three flags are. -/
theorem unknown_platform_exits_before_stages (skip_deps skip_build test : Bool)
    (system temp_dir : String) (detected_cpus : Option Nat)
    (which : String → Bool) (runner : Runner)
    (h : (detect_platform system which).1 = "unknown") :
    main_run skip_deps skip_build test system temp_dir detected_cpus
      which runner = ⟨1, false, false⟩ := by
  simp [main_run, h]

/-- Witness for C8 at an unrecognized OS identifier. -/
theorem unknown_platform_exits_before_stages_witness :
    main_run false false true "plan9" "/tmp" (some 4) whichNone runnerV2 =
      ⟨1, false, false⟩ :=
  unknown_platform_exits_before_stages false false true "plan9" "/tmp"
    (some 4) whichNone runnerV2 (by decide)

/-- C9: with the test flag unset, the already-installed fast path returns
exit code 0 without invoking the dependency or build stages whenever the
version query succeeds and its stdout contains "3.0.11" as a substring;
the witness below shows a stdout of "13.0.112" is accepted, so the check
is substring containment, not equality with the pinned version. -/
theorem already_installed_fast_path (skip_deps skip_build : Bool)
    (system temp_dir : String) (detected_cpus : Option Nat)
    (which : String → Bool) (runner : Runner)
    (h1 : (detect_platform system which).1 ≠ "unknown")
    (h2 : (runner pkgConfigCmd none).success = true)
    (h3 : strContains (runner pkgConfigCmd none).stdout "3.0.11" = true) :
    main_run skip_deps skip_build false system temp_dir detected_cpus
      which runner = ⟨0, false, false⟩ := by
  simp [main_run, h1, h2, h3]

/-- Witness for C9 at a version query reporting 13.0.112, a string that
merely contains "3.0.11". -/
theorem already_installed_fast_path_witness :
    main_run false false false "linux" "/tmp" (some 4) whichNone runner13 =
      ⟨0, false, false⟩ :=
  already_installed_fast_path false false "linux" "/tmp" (some 4) whichNone
    runner13 (by decide) (by decide) (by decide)

/-- C1 as amended: with the test flag set (and the dependency and build
stages skipped), the post-install verification performs no comparison of
the reported version against the pinned 3.0.11: the orchestrator exits 0
whenever the version query succeeds, whatever version it reports, and
exits 1 exactly when the query itself fails. -/
theorem test_verification_ignores_version (system temp_dir : String)
    (detected_cpus : Option Nat) (which : String → Bool) (runner : Runner)
    (h : (detect_platform system which).1 ≠ "unknown") :
    (main_run true true true system temp_dir detected_cpus
        which runner).exitCode =
      (if (runner pkgConfigCmd none).success then 0 else 1) := by
  cases hv : (runner pkgConfigCmd none).success <;> simp [main_run, h, hv]

/-- Witness for the amended C1 at a runner whose version query succeeds. -/
theorem test_verification_ignores_version_witness :
    (main_run true true true "linux" "/tmp" (some 4) whichNone
        runnerV2).exitCode =
      (if (runnerV2 pkgConfigCmd none).success then 0 else 1) :=
  test_verification_ignores_version "linux" "/tmp" (some 4) whichNone
    runnerV2 (by decide)

/-- Counterexample to C1 as stated: the version query succeeds reporting
2.0.0, a version other than the pinned 3.0.11, yet the run with the test
flag exits with code 0. -/
theorem test_accepts_wrong_version_cex :
    (runnerV2 pkgConfigCmd none).success = true ∧
    (runnerV2 pkgConfigCmd none).stdout = "2.0.0\n" ∧
    strContains (runnerV2 pkgConfigCmd none).stdout "3.0.11" = false ∧
    (main_run true true true "linux" "/tmp" (some 4) whichNone
      runnerV2).exitCode = 0 := by
  decide

/-- C10: whenever the orchestrator invokes build_notcurses, the skip-build
flag was unset and the detected platform name was outside arch and macos;
equivalently, on arch and macos the source build is never invoked even
without the skip-build flag. -/
theorem build_only_outside_arch_macos (skip_deps skip_build test : Bool)
    (system temp_dir : String) (detected_cpus : Option Nat)
    (which : String → Bool) (runner : Runner)
    (h : (main_run skip_deps skip_build test system temp_dir detected_cpus
      which runner).buildInvoked = true) :
    skip_build = false ∧
    (["arch", "macos"].contains (detect_platform system which).1) = false := by
  have hg : (!skip_build &&
      !(["arch", "macos"].contains (detect_platform system which).1))
      = true := by
    by_contra hc
    rw [Bool.not_eq_true] at hc
    rw [buildInvoked_false_of_guard skip_deps skip_build test system temp_dir
      detected_cpus which runner hc] at h
    exact Bool.false_ne_true h
  simp only [Bool.and_eq_true, Bool.not_eq_true'] at hg
  exact hg

/-- Witness for C10 at a run that does invoke the build stage. -/
theorem build_only_outside_arch_macos_witness :
    (false = false) ∧
    (["arch", "macos"].contains (detect_platform "linux" whichNone).1)
      = false :=
  build_only_outside_arch_macos true false false "linux" "/tmp" (some 4)
    whichNone runnerPkgFail (by decide)

end TuiInstaller
